import Mathlib

/-
Shallow embedding of the strict lead-intake relay handler
(api/lead-intake.ts, first revision in the file: the one with
normalizePhoneToE164 / isValidEmail / isValidPhoneE164 and 422 errors).

Modelling conventions:
- JavaScript strings are Lean String; all string algorithms are written over
  the underlying List Char so that they compute by kernel reduction.
- A request field that may be absent is Option String; the JavaScript nullish
  coalescing operator a ?? b is Option.getD, and the truthiness fallback
  a || b on strings maps the empty string to the fallback as well (jsOr).
- The handler body after the method/key gates is the pure function step1;
  its result either is an HTTP response produced without contacting the CRM
  (Step1.response) or records that the outbound CRM call is issued with a
  given payload (Step1.send).  stripUndefined is modelled by Option-valued
  payload fields (none = key absent).
- The CRM response processing (502 passthrough and lead-id extraction from
  the parsed JSON body) is respondAfterCrm / extractLeadId over a small JSON
  value type; JSON.parse is modelled as an Option Json argument (none =
  the body did not parse).
-/

/-- Whitespace class used by JavaScript String.prototype.trim and the regex
class backslash-s: ASCII whitespace, NBSP, BOM, and the Unicode space
separators. -/
def isJsWS (c : Char) : Bool :=
  c == ' ' || c == '\t' || c == '\n' || c == '\r' ||
  c.toNat == 11 || c.toNat == 12 || c.toNat == 0xa0 || c.toNat == 0x1680 ||
  (0x2000 ≤ c.toNat && c.toNat ≤ 0x200a) || c.toNat == 0x2028 ||
  c.toNat == 0x2029 || c.toNat == 0x202f || c.toNat == 0x205f ||
  c.toNat == 0x3000 || c.toNat == 0xfeff

/-- Drop leading JS whitespace. -/
def trimL (l : List Char) : List Char := l.dropWhile isJsWS

/-- Drop trailing JS whitespace. -/
def trimR (l : List Char) : List Char := (l.reverse.dropWhile isJsWS).reverse

/-- Drop whitespace at both ends. -/
def trimChars (l : List Char) : List Char := trimR (trimL l)

/-- JavaScript String.prototype.trim. -/
def jsTrim (s : String) : String := String.mk (trimChars s.data)

/-- JavaScript s.split(sep) for a one-character separator: every occurrence
of the separator is a cut point, empty segments are kept. -/
def splitOnChar (sep : Char) : List Char → List (List Char)
  | [] => [[]]
  | c :: rest =>
    match splitOnChar sep rest with
    | [] => [[]]
    | h :: t => if c == sep then [] :: h :: t else (c :: h) :: t

/-- JavaScript a ?? b for an optionally-present string a. -/
def orDefault (v : Option String) (d : String) : String := v.getD d

/-- JavaScript a || b where a is an optionally-present string: both a missing
value and the empty string fall through to the default. -/
def jsOr (v : Option String) (d : String) : String :=
  match v with
  | some s => if s = "" then d else s
  | none => d

/-- The .map(s =&gt; s.trim()).filter(Boolean) idiom the handler applies to
tag lists (and that the configuration parser applies to comma-split env
values): trim every element, drop the empty ones, keep order and
duplicates. -/
def normTags (l : List String) : List String :=
  (l.map jsTrim).filter (fun s => s != "")

/-- Parse a comma-separated env value the way the handler's module
initialisation does: split on commas, trim every piece, drop empty pieces. -/
def parseListEnv (s : String) : List String :=
  normTags ((splitOnChar ',' s.data).map (fun cs => String.mk cs))

/-- The environment variables the handler reads (none = unset). -/
structure Env where
  ALLOWED_ORIGINS : Option String := none
  DEFAULT_SOURCE : Option String := none
  DEFAULT_TAGS : Option String := none
  FORCE_ASSIGNEE_ID : Option String := none

/-- The process-wide configuration derived from the environment at cold
start. -/
structure Config where
  allowedOrigins : List String
  defaultSource : String
  defaultTags : List String
  forceAssigneeId : Option String

/-- Module initialisation: ALLOWED_ORIGINS and DEFAULT_TAGS are comma-split,
trimmed and filtered; DEFAULT_SOURCE falls back on the built-in default via
the truthy or-else; FORCE_ASSIGNEE_ID is kept as-is. -/
def mkConfig (e : Env) : Config :=
  { allowedOrigins := parseListEnv (jsOr e.ALLOWED_ORIGINS ("*"))
    defaultSource := jsOr e.DEFAULT_SOURCE ("Website: Georgia Blu Info Form")
    defaultTags := parseListEnv (jsOr e.DEFAULT_TAGS ("Georgia Blu,New Development Leads"))
    forceAssigneeId := e.FORCE_ASSIGNEE_ID }

/-- The tags (or tags[]) field of the inbound body: an array of strings, a
single string, or absent.  A present non-array non-string value behaves
exactly like an absent one (the handler leaves tags = []), so it is folded
into none. -/
inductive TagsInput where
  | arr (tags : List String)
  | single (tag : String)

/-- The parsed inbound request body, keyed by every alias the handler reads.
Every field is attacker-controlled and optional; the handler coerces present
values to strings, which the model bakes in by using String directly. -/
structure RawSubmission where
  firstName : Option String := none
  FirstName : Option String := none
  Name : Option String := none
  name : Option String := none
  lastName : Option String := none
  LastName : Option String := none
  email : Option String := none
  Email : Option String := none
  phone : Option String := none
  Phone : Option String := none
  message : Option String := none
  Message : Option String := none
  hp : Option String := none
  honey : Option String := none
  source : Option String := none
  tagsInput : Option TagsInput := none

/-- raw.firstName ?? raw.FirstName ?? raw.Name ?? raw.name ?? ''. -/
def resolveFirstName (r : RawSubmission) : String :=
  orDefault r.firstName (orDefault r.FirstName (orDefault r.Name (orDefault r.name (""))))

/-- raw.lastName ?? raw.LastName ?? ''. -/
def resolveLastName (r : RawSubmission) : String :=
  orDefault r.lastName (orDefault r.LastName (""))

/-- raw.email ?? raw.Email ?? ''. -/
def resolveEmailIn (r : RawSubmission) : String :=
  orDefault r.email (orDefault r.Email (""))

/-- raw.phone ?? raw.Phone ?? ''. -/
def resolvePhoneIn (r : RawSubmission) : String :=
  orDefault r.phone (orDefault r.Phone (""))

/-- raw.message ?? raw.Message ?? ''. -/
def resolveMessage (r : RawSubmission) : String :=
  orDefault r.message (orDefault r.Message (""))

/-- raw.hp ?? raw._honey ?? '' (the honeypot field). -/
def resolveHp (r : RawSubmission) : String :=
  orDefault r.hp (orDefault r.honey (""))

/-- tags extraction: an array is mapped to strings, a single string becomes a
one-element list, anything else leaves the empty list. -/
def resolveTags (r : RawSubmission) : List String :=
  match r.tagsInput with
  | some (TagsInput.arr l) => l
  | some (TagsInput.single s) => [s]
  | none => []

/-- normalizeEmail: String(v || '').trim(). -/
def normalizeEmail (v : String) : String := jsTrim v

/-- Character class of the first replace in normalizePhoneToE164: keep
digits and plus signs. -/
def phoneKeep (c : Char) : Bool := c.isDigit || c == '+'

/-- normalizePhoneToE164: keep digits and plus; empty fails; a leading plus
is returned as-is; otherwise strip non-digits and accept 10 digits with an
inferred +1 or 11 to 15 digits with a plus; anything else fails with the
empty string. -/
def normalizePhoneToE164 (v : String) : String :=
  let raw := v.data.filter phoneKeep
  if raw = [] then ""
  else if raw.head? = some '+' then String.mk raw
  else
    let digits := raw.filter Char.isDigit
    if digits.length = 10 then String.mk ('+' :: '1' :: digits)
    else if 11 ≤ digits.length ∧ digits.length ≤ 15 then String.mk ('+' :: digits)
    else ""

/-- The email regex test: one or more characters that are neither whitespace
nor at-sign, an at-sign, then a domain of the same class that contains a dot
with at least one character on each side.  The string therefore contains
exactly one at-sign, which the comma-free split witnesses by producing
exactly two segments. -/
def emailRegexTest (s : String) : Bool :=
  match splitOnChar '@' s.data with
  | [a, b] =>
    !a.isEmpty && a.all (fun c => !isJsWS c) && b.all (fun c => !isJsWS c) &&
    ((b.drop 1).dropLast.contains '.')
  | _ => false

/-- isValidEmail: a truthy (non-empty) string that passes the email regex. -/
def isValidEmail (v : String) : Bool := (v != "") && emailRegexTest v

/-- isValidPhoneE164: a plus sign followed by 10 to 15 digits and nothing
else. -/
def isValidPhoneE164 (v : String) : Bool :=
  match v.data with
  | '+' :: ds => ds.all Char.isDigit && decide (10 ≤ ds.length) && decide (ds.length ≤ 15)
  | _ => false

/-- A small JSON value type for the CRM response body. -/
inductive Json where
  | null
  | bool (b : Bool)
  | num (n : Int)
  | str (s : String)
  | arr (elts : List Json)
  | obj (fields : List (String × Json))

/-- A response body the handler can produce: the bare success object, the
success object carrying loftyLeadId, a bare error message, or an error with
diagnostic detail. -/
inductive RespBody where
  | okSimple
  | okLead (leadId' : Json)
  | err (msg : String)
  | errDetail (msg detail : String)

/-- The outbound Lofty payload after stripUndefined: none models an omitted
key.  The source stores the forced assignee under both the camelCase and the
snake case key with the same value, modelled by the single field
assigneeId. -/
structure Payload where
  firstName : String
  lastName : Option String
  source : String
  tags : List String
  notes : String
  email : Option String
  phone : Option String
  emails : Option (List String)
  phones : Option (List String)
  assigneeId : Option String

/-- Result of the main handler body: either an HTTP response produced
without contacting the CRM, or the outbound CRM call together with the exact
payload it carries. -/
inductive Step1 where
  | response (status : Nat) (body : RespBody)
  | send (payload : Payload)

/-- The payload the strict handler builds right before the fetch call
(lines 101 to 119 of the source). -/
def sendPayload (cfg : Config) (r : RawSubmission) : Payload :=
  let message := resolveMessage r
  let email := normalizeEmail (resolveEmailIn r)
  let phone := normalizePhoneToE164 (resolvePhoneIn r)
  { firstName := jsTrim (resolveFirstName r)
    lastName := if jsTrim (resolveLastName r) = "" then none else some (jsTrim (resolveLastName r))
    source := jsTrim (orDefault r.source cfg.defaultSource)
    tags := ((cfg.defaultTags ++ resolveTags r).map jsTrim).filter (fun s => s != "")
    notes := if message = "" then "" else jsTrim message
    email := if email = "" then none else some email
    phone := if phone = "" then none else some phone
    emails := if email = "" then none else some [email]
    phones := if phone = "" then none else some [phone]
    assigneeId :=
      match cfg.forceAssigneeId with
      | some k => if k = "" then none else some k
      | none => none }

/-- The strict handler body after the method and API-key gates (lines 60 to
131 of the source): honeypot short-circuit, then the five validation gates
in source order, then the outbound call. -/
def step1 (cfg : Config) (r : RawSubmission) : Step1 :=
  let hp := resolveHp r
  if hp ≠ "" then Step1.response 200 RespBody.okSimple
  else
    let email := normalizeEmail (resolveEmailIn r)
    let phone := normalizePhoneToE164 (resolvePhoneIn r)
    let phoneIn := resolvePhoneIn r
    if jsTrim (resolveFirstName r) = "" then
      Step1.response 422 (RespBody.err ("First name is required."))
    else if email = "" ∧ phone = "" then
      Step1.response 422 (RespBody.err ("Provide at least an email or a phone."))
    else if email ≠ "" ∧ isValidEmail email = false then
      Step1.response 422 (RespBody.err ("Email is not valid."))
    else if phoneIn ≠ "" ∧ phone = "" then
      Step1.response 422 (RespBody.err ("Phone number is not valid. Use 10 digits (NA) or an international format."))
    else if phone ≠ "" ∧ isValidPhoneE164 phone = false then
      Step1.response 422 (RespBody.err ("Phone is not valid E.164."))
    else Step1.send (sendPayload cfg r)

/-- The CORS headers setCORS writes on every response. -/
structure CorsHeaders where
  allowOrigin : String
  vary : String
  allowMethods : String
  allowHeaders : String

/-- setCORS: echo the origin whenever it is truthy and either the allow-list
holds the wildcard or the origin itself is listed; otherwise answer the
wildcard.  Vary Origin and the method and header advertisements are always
set. -/
def setCORS (cfg : Config) (origin : Option String) : CorsHeaders :=
  let allowAny := cfg.allowedOrigins.contains ("*")
  let allowThis :=
    match origin with
    | some o => (o != "") && (allowAny || cfg.allowedOrigins.contains o)
    | none => false
  { allowOrigin := if allowThis then orDefault origin ("") else "*"
    vary := "Origin"
    allowMethods := "POST, OPTIONS"
    allowHeaders := "Content-Type" }

/-- Json.isNull distinguishes the nullish results in the id-extraction
chain. -/
def Json.isNull : Json → Bool
  | Json.null => true
  | _ => false

/-- JavaScript data?.key with the nullish results collapsed: reading a key
off anything that is not an object, or a key that is absent, yields null. -/
def jsGet (j : Json) (key : String) : Json :=
  match j with
  | Json.obj fields =>
    match fields.lookup key with
    | some v => v
    | none => Json.null
  | _ => Json.null

/-- JavaScript a ?? b over collapsed JSON values. -/
def jsCoalesce (a b : Json) : Json := if a.isNull then b else a

/-- Lead-id extraction from the parsed CRM response (line 143 of the
source): data?.id ?? data?.leadId ?? data?.lead?.id ?? data?.data?.id ??
null, with a body that failed to parse (none) leaving null. -/
def extractLeadId (parsed : Option Json) : Json :=
  match parsed with
  | none => Json.null
  | some d =>
    jsCoalesce (jsGet d ("id"))
      (jsCoalesce (jsGet d ("leadId"))
        (jsCoalesce (jsGet (jsGet d ("lead")) ("id"))
          (jsGet (jsGet d ("data")) ("id"))))

/-- Mapping of the CRM response to the relay response (lines 136 to 146):
a non-ok status is relayed as 502 with the raw body as detail, an ok status
as 200 with ok true and the extracted lead id. -/
def respondAfterCrm (crmOk : Bool) (rawBody : String) (parsed : Option Json) : Nat × RespBody :=
  if crmOk then (200, RespBody.okLead (extractLeadId parsed))
  else (502, RespBody.errDetail ("Lofty API error") rawBody)

/-- Projection used by counterexamples: the payload a Step1 result sends to
the CRM, if any. -/
def sentPayload : Step1 → Option Payload
  | Step1.send p => some p
  | _ => none

/-- An environment with every variable unset: all defaults apply. -/
def emptyEnv : Env := {}

/-- The default configuration (every env var unset). -/
def defCfg : Config := mkConfig emptyEnv

/-- Concrete submissions used by witnesses and counterexamples. -/
def subHoney : RawSubmission := { hp := some ("gotcha") }

/-- Submission with no first name and no contact data at all. -/
def subEmpty : RawSubmission := {}

/-- Submission with a first name and a phone that fails normalization, but
no email. -/
def subBadPhoneNoEmail : RawSubmission :=
  { firstName := some ("Ana")
    phone := some ("123") }

/-- Submission with a first name, a valid email and a phone that fails
normalization. -/
def subBadPhoneWithEmail : RawSubmission :=
  { firstName := some ("Ana")
    email := some ("a@b.com")
    phone := some ("123") }

/-- Submission with a present but whitespace-only source field. -/
def subBlankSource : RawSubmission :=
  { firstName := some ("Ana")
    email := some ("a@b.com")
    source := some ("   ") }

/-- Submission with a present, padded source field. -/
def subPaddedSource : RawSubmission :=
  { firstName := some ("Ana")
    email := some ("a@b.com")
    source := some ("  Facebook Ad  ") }

/-- A valid submission carrying caller tags with padding, an empty entry and
a duplicate of a default tag. -/
def subTagged : RawSubmission :=
  { firstName := some ("Ana")
    email := some ("a@b.com")
    phone := some ("(555) 123-4567")
    tagsInput := some (TagsInput.arr [" vip ", "", "Georgia Blu"]) }

/-- Environment whose allow-list is exactly the wildcard. -/
def wildcardEnv : Env := { ALLOWED_ORIGINS := some ("*") }

/-- Environment whose allow-list is exactly one concrete origin. -/
def exampleEnv : Env := { ALLOWED_ORIGINS := some ("https://example.com") }

/-- Dropping a satisfied run twice is the same as dropping it once. -/
theorem dropWhile_idem (p : α → Bool) (l : List α) :
    (l.dropWhile p).dropWhile p = l.dropWhile p := by
  induction l with
  | nil => rfl
  | cons a l ih =>
    by_cases h : p a
    · simp [List.dropWhile_cons, h, ih]
    · simp [List.dropWhile_cons, h]

/-- Reversing turns a suffix into an initial segment. -/
theorem rev_of_suffix (l m : List α) (h : l <:+ m) : l.reverse <+: m.reverse := by
  obtain ⟨t, rfl⟩ := h
  exact ⟨t.reverse, by simp⟩

/-- An initial segment of a list with no leading satisfied run also has no
leading satisfied run. -/
theorem dropWhile_eq_self_of_initial (p : α → Bool) (l m : List α)
    (hm : m.dropWhile p = m) (h : l <+: m) : l.dropWhile p = l := by
  cases l with
  | nil => rfl
  | cons x xs =>
    obtain ⟨r, hr⟩ := h
    by_cases hx : p x
    · exfalso
      have h1 : m.dropWhile p = (xs ++ r).dropWhile p := by
        rw [← hr]
        simp [List.dropWhile_cons, hx]
      rw [hm] at h1
      have h2 : ((xs ++ r).dropWhile p).length ≤ (xs ++ r).length :=
        (List.dropWhile_suffix p).length_le
      have h3 : m.length = (xs ++ r).length + 1 := by
        rw [← hr]
        simp
      have h4 : m.length = ((xs ++ r).dropWhile p).length := congrArg List.length h1
      omega
    · simp [List.dropWhile_cons, hx]

/-- Trimming on the right only removes elements from the back, so the result
is an initial segment of the input. -/
theorem trimR_initial (l : List Char) : trimR l <+: l := by
  have h : l.reverse.dropWhile isJsWS <:+ l.reverse := List.dropWhile_suffix isJsWS
  have h2 := rev_of_suffix _ _ h
  rwa [List.reverse_reverse] at h2

/-- Right trimming twice is the same as right trimming once. -/
theorem trimR_idem (l : List Char) : trimR (trimR l) = trimR l := by
  unfold trimR
  rw [List.reverse_reverse, dropWhile_idem]

/-- Trimming both ends is idempotent. -/
theorem trimChars_idem (l : List Char) : trimChars (trimChars l) = trimChars l := by
  have hL : trimL (trimL l) = trimL l := dropWhile_idem isJsWS l
  have hL2 : trimL (trimR (trimL l)) = trimR (trimL l) :=
    dropWhile_eq_self_of_initial isJsWS _ _ hL (trimR_initial (trimL l))
  calc trimChars (trimChars l) = trimR (trimL (trimR (trimL l))) := rfl
    _ = trimR (trimR (trimL l)) := by rw [hL2]
    _ = trimR (trimL l) := trimR_idem _
    _ = trimChars l := rfl

/-- JavaScript trim is idempotent. -/
theorem jsTrim_idem (s : String) : jsTrim (jsTrim s) = jsTrim s :=
  congrArg String.mk (trimChars_idem s.data)

/-- Keeping the phone characters twice is the same as keeping them once. -/
theorem filter_phoneKeep_idem (l : List Char) :
    (l.filter phoneKeep).filter phoneKeep = l.filter phoneKeep := by
  apply List.filter_eq_self.mpr
  intro a ha
  exact List.of_mem_filter ha

/-- A string of kept phone characters that starts with a plus is returned
unchanged by normalizePhoneToE164. -/
theorem normalizePhone_mk_eq (l : List Char) (h1 : l ≠ [])
    (h2 : l.filter phoneKeep = l) (h3 : l.head? = some '+') :
    normalizePhoneToE164 (String.mk l) = String.mk l := by
  simp only [normalizePhoneToE164, h2]
  rw [if_neg h1, if_pos h3]

/-- Every result of normalizePhoneToE164 is either the empty failure string
or a non-empty string of kept phone characters that starts with a plus. -/
theorem normalizePhone_shape (v : String) :
    normalizePhoneToE164 v = "" ∨
    (∃ l : List Char, normalizePhoneToE164 v = String.mk l ∧ l ≠ [] ∧
      l.filter phoneKeep = l ∧ l.head? = some '+') := by
  by_cases h1 : v.data.filter phoneKeep = []
  · left
    simp only [normalizePhoneToE164]
    rw [if_pos h1]
  · by_cases h2 : (v.data.filter phoneKeep).head? = some '+'
    · right
      refine ⟨v.data.filter phoneKeep, ?_, h1, filter_phoneKeep_idem v.data, h2⟩
      simp only [normalizePhoneToE164]
      rw [if_neg h1, if_pos h2]
    · have hdig : ∀ c ∈ (v.data.filter phoneKeep).filter Char.isDigit, phoneKeep c = true := by
        intro c hc
        have hcd : c.isDigit := List.of_mem_filter hc
        simp [phoneKeep, hcd]
      by_cases h3 : ((v.data.filter phoneKeep).filter Char.isDigit).length = 10
      · right
        refine ⟨'+' :: '1' :: (v.data.filter phoneKeep).filter Char.isDigit, ?_, by simp, ?_, rfl⟩
        · simp only [normalizePhoneToE164]
          rw [if_neg h1, if_neg h2, if_pos h3]
        · rw [List.filter_cons_of_pos (by decide), List.filter_cons_of_pos (by decide),
            List.filter_eq_self.mpr hdig]
      · by_cases h4 : 11 ≤ ((v.data.filter phoneKeep).filter Char.isDigit).length ∧
            ((v.data.filter phoneKeep).filter Char.isDigit).length ≤ 15
        · right
          refine ⟨'+' :: (v.data.filter phoneKeep).filter Char.isDigit, ?_, by simp, ?_, rfl⟩
          · simp only [normalizePhoneToE164]
            rw [if_neg h1, if_neg h2, if_neg h3, if_pos h4]
          · rw [List.filter_cons_of_pos (by decide), List.filter_eq_self.mpr hdig]
        · left
          simp only [normalizePhoneToE164]
          rw [if_neg h1, if_neg h2, if_neg h3, if_neg h4]

/-- Phone normalization is idempotent; in particular every non-empty output
is returned unchanged when normalized again. -/
theorem normalizePhone_idem (v : String) :
    normalizePhoneToE164 (normalizePhoneToE164 v) = normalizePhoneToE164 v := by
  rcases normalizePhone_shape v with h | ⟨l, hl, h1, h2, h3⟩
  · rw [h]
    rfl
  · rw [hl]
    exact normalizePhone_mk_eq l h1 h2 h3

/-- Every element surviving the trim-and-filter idiom is already trimmed and
non-empty. -/
theorem mem_normTags (l : List String) (x : String) (hx : x ∈ normTags l) :
    jsTrim x = x ∧ x ≠ "" := by
  unfold normTags at hx
  have h1 := List.mem_filter.mp hx
  obtain ⟨y, hy, rfl⟩ := List.mem_map.mp h1.1
  refine ⟨jsTrim_idem y, ?_⟩
  have h2 := h1.2
  simpa using h2

/-- The trim-and-filter idiom fixes a list whose elements are already
trimmed and non-empty. -/
theorem normTags_eq_self (l : List String) (h : ∀ x ∈ l, jsTrim x = x ∧ x ≠ "") :
    normTags l = l := by
  induction l with
  | nil => rfl
  | cons a t ih =>
    obtain ⟨ha1, ha2⟩ := h a (List.mem_cons_self a t)
    have ht := ih (fun x hx => h x (List.mem_cons_of_mem a hx))
    unfold normTags at ht ⊢
    simp only [List.map_cons, List.filter_cons, ha1]
    simp [ha2, ht]

/-- The trim-and-filter idiom distributes over concatenation. -/
theorem normTags_append (l₁ l₂ : List String) :
    normTags (l₁ ++ l₂) = normTags l₁ ++ normTags l₂ := by
  unfold normTags
  rw [List.map_append, List.filter_append]

/-- The trim-and-filter idiom is idempotent. -/
theorem normTags_idem (l : List String) : normTags (normTags l) = normTags l :=
  normTags_eq_self _ (fun x hx => mem_normTags l x hx)

/-- Every entry of a parsed comma-separated env value is trimmed and
non-empty. -/
theorem mem_parseListEnv (s : String) (x : String) (hx : x ∈ parseListEnv s) :
    jsTrim x = x ∧ x ≠ "" :=
  mem_normTags _ x hx

/-- Inversion of the handler body: when the result is the outbound CRM call,
the payload is exactly sendPayload and every validation gate was passed. -/
theorem step1_send_inv (cfg : Config) (r : RawSubmission) (p : Payload)
    (h : step1 cfg r = Step1.send p) :
    p = sendPayload cfg r ∧
    resolveHp r = "" ∧
    jsTrim (resolveFirstName r) ≠ "" ∧
    ¬(normalizeEmail (resolveEmailIn r) = "" ∧ normalizePhoneToE164 (resolvePhoneIn r) = "") ∧
    ¬(normalizeEmail (resolveEmailIn r) ≠ "" ∧
      isValidEmail (normalizeEmail (resolveEmailIn r)) = false) ∧
    ¬(resolvePhoneIn r ≠ "" ∧ normalizePhoneToE164 (resolvePhoneIn r) = "") ∧
    ¬(normalizePhoneToE164 (resolvePhoneIn r) ≠ "" ∧
      isValidPhoneE164 (normalizePhoneToE164 (resolvePhoneIn r)) = false) := by
  simp only [step1] at h
  by_cases h0 : resolveHp r ≠ ""
  · rw [if_pos h0] at h
    exact Step1.noConfusion h
  · rw [if_neg h0] at h
    by_cases h1 : jsTrim (resolveFirstName r) = ""
    · rw [if_pos h1] at h
      exact Step1.noConfusion h
    · rw [if_neg h1] at h
      by_cases h2 : normalizeEmail (resolveEmailIn r) = "" ∧ normalizePhoneToE164 (resolvePhoneIn r) = ""
      · rw [if_pos h2] at h
        exact Step1.noConfusion h
      · rw [if_neg h2] at h
        by_cases h3 : normalizeEmail (resolveEmailIn r) ≠ "" ∧
            isValidEmail (normalizeEmail (resolveEmailIn r)) = false
        · rw [if_pos h3] at h
          exact Step1.noConfusion h
        · rw [if_neg h3] at h
          by_cases h4 : resolvePhoneIn r ≠ "" ∧ normalizePhoneToE164 (resolvePhoneIn r) = ""
          · rw [if_pos h4] at h
            exact Step1.noConfusion h
          · rw [if_neg h4] at h
            by_cases h5 : normalizePhoneToE164 (resolvePhoneIn r) ≠ "" ∧
                isValidPhoneE164 (normalizePhoneToE164 (resolvePhoneIn r)) = false
            · rw [if_pos h5] at h
              exact Step1.noConfusion h
            · rw [if_neg h5] at h
              injection h with hpe
              exact ⟨hpe.symm, not_not.mp h0, h1, h2, h3, h4, h5⟩

/-- C1: every submission whose honeypot field (hp, falling back to _honey)
resolves to a non-empty value is answered 200 with the bare ok-true body,
whatever the other fields hold, and the outbound CRM call is never made. -/
theorem honeypot_short_circuit (cfg : Config) (r : RawSubmission)
    (h : resolveHp r ≠ "") :
    step1 cfg r = Step1.response 200 RespBody.okSimple ∧
    ∀ q, step1 cfg r ≠ Step1.send q := by
  simp only [step1]
  rw [if_pos h]
  exact ⟨rfl, fun q hq => Step1.noConfusion hq⟩

/-- C1 witness: a concrete honeypot submission. -/
theorem honeypot_short_circuit_witness :
    step1 defCfg subHoney = Step1.response 200 RespBody.okSimple ∧
    ∀ q, step1 defCfg subHoney ≠ Step1.send q :=
  honeypot_short_circuit defCfg subHoney (by decide)

/-- C2: every non-honeypot submission whose resolved first name trims to
empty, or whose normalized email and normalized phone are both empty, is
answered 422 with one of the two descriptive messages, and the outbound CRM
call is never made. -/
theorem missing_fields_rejected (cfg : Config) (r : RawSubmission)
    (hhp : resolveHp r = "")
    (hbad : jsTrim (resolveFirstName r) = "" ∨
      (normalizeEmail (resolveEmailIn r) = "" ∧ normalizePhoneToE164 (resolvePhoneIn r) = "")) :
    (step1 cfg r = Step1.response 422 (RespBody.err ("First name is required.")) ∨
     step1 cfg r = Step1.response 422 (RespBody.err ("Provide at least an email or a phone."))) ∧
    ∀ q, step1 cfg r ≠ Step1.send q := by
  simp only [step1]
  rw [if_neg (not_not_intro hhp)]
  by_cases h1 : jsTrim (resolveFirstName r) = ""
  · rw [if_pos h1]
    exact ⟨Or.inl rfl, fun q hq => Step1.noConfusion hq⟩
  · rcases hbad with hfn | hcontact
    · exact absurd hfn h1
    · rw [if_neg h1, if_pos hcontact]
      exact ⟨Or.inr rfl, fun q hq => Step1.noConfusion hq⟩

/-- C2 witness: the empty submission lacks a first name. -/
theorem missing_fields_rejected_witness :
    (step1 defCfg subEmpty = Step1.response 422 (RespBody.err ("First name is required.")) ∨
     step1 defCfg subEmpty = Step1.response 422 (RespBody.err ("Provide at least an email or a phone."))) ∧
    ∀ q, step1 defCfg subEmpty ≠ Step1.send q :=
  missing_fields_rejected defCfg subEmpty (by decide) (Or.inl (by decide))

/-- C3 counterexample: the submission with first name Ana, phone 123 and no
email supplies a phone (non-empty before normalization) that fails to
normalize, yet the handler answers with the phone-absent message, not with
the phone-specific one, because the missing-contact gate runs first. -/
theorem bad_phone_error_counterexample :
    step1 defCfg subBadPhoneNoEmail =
      Step1.response 422 (RespBody.err ("Provide at least an email or a phone.")) ∧
    resolvePhoneIn subBadPhoneNoEmail = "123" ∧
    normalizePhoneToE164 ("123") = "" ∧
    step1 defCfg subBadPhoneNoEmail ≠
      Step1.response 422 (RespBody.err ("Phone number is not valid. Use 10 digits (NA) or an international format.")) := by
  have h1 : step1 defCfg subBadPhoneNoEmail =
      Step1.response 422 (RespBody.err ("Provide at least an email or a phone.")) := by rfl
  refine ⟨h1, rfl, rfl, ?_⟩
  intro hc
  rw [h1] at hc
  injection hc with hstat hbody
  injection hbody with hmsg
  exact absurd hmsg (by decide)

/-- C3 amended: for a non-honeypot submission with a non-empty trimmed first
name and a supplied phone that fails to normalize, the handler answers the
phone-specific message only when a valid non-empty email accompanies it;
when the email is empty it answers the phone-absent message instead. -/
theorem bad_phone_error_amended (cfg : Config) (r : RawSubmission)
    (hhp : resolveHp r = "")
    (hfn : jsTrim (resolveFirstName r) ≠ "")
    (hpin : resolvePhoneIn r ≠ "")
    (hpn : normalizePhoneToE164 (resolvePhoneIn r) = "") :
    (normalizeEmail (resolveEmailIn r) = "" →
      step1 cfg r = Step1.response 422 (RespBody.err ("Provide at least an email or a phone."))) ∧
    (normalizeEmail (resolveEmailIn r) ≠ "" →
      isValidEmail (normalizeEmail (resolveEmailIn r)) = true →
      step1 cfg r = Step1.response 422
        (RespBody.err ("Phone number is not valid. Use 10 digits (NA) or an international format."))) := by
  simp only [step1]
  rw [if_neg (not_not_intro hhp), if_neg hfn]
  constructor
  · intro hem
    rw [if_pos ⟨hem, hpn⟩]
  · intro hem hval
    have hc2 : ¬(normalizeEmail (resolveEmailIn r) = "" ∧
        normalizePhoneToE164 (resolvePhoneIn r) = "") := fun hc => hem hc.1
    have hc3 : ¬(normalizeEmail (resolveEmailIn r) ≠ "" ∧
        isValidEmail (normalizeEmail (resolveEmailIn r)) = false) := by
      intro hc
      rw [hval] at hc
      exact Bool.noConfusion hc.2
    rw [if_neg hc2, if_neg hc3, if_pos ⟨hpin, hpn⟩]

/-- C3 amended witness: with a valid email alongside the bad phone the
phone-specific message is produced. -/
theorem bad_phone_error_amended_witness :
    step1 defCfg subBadPhoneWithEmail = Step1.response 422
      (RespBody.err ("Phone number is not valid. Use 10 digits (NA) or an international format.")) :=
  (bad_phone_error_amended defCfg subBadPhoneWithEmail
    (by decide) (by decide) (by decide) (by decide)).2 (by decide) (by decide)

/-- C4: the three documented phone normalization examples: a North-American
formatted number gains a plus-one, an international number keeps its plus
and loses the spacing, and a three-digit string fails to the empty string. -/
theorem phone_normalization_examples :
    normalizePhoneToE164 ("(555) 123-4567") = "+15551234567" ∧
    normalizePhoneToE164 ("+44 20 7946 0958") = "+442079460958" ∧
    normalizePhoneToE164 ("123") = "" :=
  ⟨by decide, by decide, by decide⟩

/-- C5: whenever a submission passes validation and the CRM call is issued,
the payload's tags are the configured default tag list followed by the
caller tags trimmed and stripped of empties, order preserved and duplicates
retained. -/
theorem payload_tags_shape (e : Env) (r : RawSubmission) (p : Payload)
    (h : step1 (mkConfig e) r = Step1.send p) :
    p.tags = (mkConfig e).defaultTags ++
      ((resolveTags r).map jsTrim).filter (fun s => s != "") := by
  obtain ⟨hp, -⟩ := step1_send_inv _ _ _ h
  subst hp
  have hcode : (sendPayload (mkConfig e) r).tags =
      normTags ((mkConfig e).defaultTags ++ resolveTags r) := rfl
  rw [hcode, normTags_append,
    normTags_eq_self ((mkConfig e).defaultTags) (fun x hx => mem_parseListEnv _ x hx)]
  rfl

/-- C5 witness: concrete tagged submission under the default env; caller
tags are trimmed, the empty one dropped, and the duplicate default kept. -/
theorem payload_tags_shape_witness :
    (sendPayload (mkConfig emptyEnv) subTagged).tags =
      (mkConfig emptyEnv).defaultTags ++
        ((resolveTags subTagged).map jsTrim).filter (fun s => s != "") :=
  payload_tags_shape emptyEnv subTagged (sendPayload (mkConfig emptyEnv) subTagged) rfl

/-- C6 counterexample: a submission whose source key is present but
whitespace-only is forwarded with the empty source, not with the configured
default, because the nullish check only tests presence. -/
theorem payload_source_counterexample :
    (sentPayload (step1 defCfg subBlankSource)).map Payload.source = some ("") ∧
    subBlankSource.source = some ("   ") ∧
    defCfg.defaultSource = "Website: Georgia Blu Info Form" ∧
    ("" : String) ≠ "Website: Georgia Blu Info Form" :=
  ⟨rfl, rfl, rfl, by decide⟩

/-- C6 amended: the forwarded source is the trimmed caller value whenever
the source key is present, even when that trims to empty; only an absent key
falls back on the trimmed configured default. -/
theorem payload_source_amended (cfg : Config) (r : RawSubmission) (p : Payload)
    (h : step1 cfg r = Step1.send p) :
    (∀ s, r.source = some s → p.source = jsTrim s) ∧
    (r.source = none → p.source = jsTrim cfg.defaultSource) := by
  obtain ⟨hp, -⟩ := step1_send_inv _ _ _ h
  subst hp
  constructor
  · intro s hs
    simp [sendPayload, orDefault, hs]
  · intro hs
    simp [sendPayload, orDefault, hs]

/-- C6 amended witness: a padded caller source is forwarded trimmed. -/
theorem payload_source_amended_witness :
    (sendPayload defCfg subPaddedSource).source = jsTrim ("  Facebook Ad  ") :=
  (payload_source_amended defCfg subPaddedSource
    (sendPayload defCfg subPaddedSource) rfl).1 ("  Facebook Ad  ") rfl

/-- C7 counterexample: under the wildcard-only allow-list an unlisted,
non-empty origin is echoed back verbatim instead of the wildcard the claim
requires. -/
theorem cors_wildcard_counterexample :
    (mkConfig wildcardEnv).allowedOrigins = ["*"] ∧
    (setCORS (mkConfig wildcardEnv) (some ("https://evil.example"))).allowOrigin =
      "https://evil.example" ∧
    ("https://evil.example" ∉ (mkConfig wildcardEnv).allowedOrigins) ∧
    ("https://evil.example" : String) ≠ "*" :=
  ⟨rfl, rfl, by decide, by decide⟩

/-- C7 amended: an origin listed in the configured allow-list is echoed back
with Vary Origin; under a wildcard-carrying allow-list every non-empty
origin is echoed back; and an absent origin always receives the wildcard. -/
theorem cors_allow_origin :
    (∀ (e : Env) (o : String), o ∈ (mkConfig e).allowedOrigins →
      (setCORS (mkConfig e) (some o)).allowOrigin = o ∧
      (setCORS (mkConfig e) (some o)).vary = "Origin") ∧
    (∀ (cfg : Config) (o : String), cfg.allowedOrigins.contains ("*") = true → o ≠ "" →
      (setCORS cfg (some o)).allowOrigin = o) ∧
    (∀ cfg : Config, (setCORS cfg none).allowOrigin = "*") := by
  refine ⟨?_, ?_, ?_⟩
  · intro e o ho
    have hne : o ≠ "" := (mem_parseListEnv _ o ho).2
    have hb : (o != "") = true := bne_iff_ne.mpr hne
    have hcont : (mkConfig e).allowedOrigins.contains o = true :=
      List.elem_eq_true_of_mem ho
    refine ⟨?_, rfl⟩
    simp only [setCORS, hb, hcont, Bool.or_true, Bool.true_and]
    rw [if_pos trivial]
    rfl
  · intro cfg o hstar hne
    have hb : (o != "") = true := bne_iff_ne.mpr hne
    simp only [setCORS, hb, hstar, Bool.true_or, Bool.true_and]
    rw [if_pos trivial]
    rfl
  · intro cfg
    rfl

/-- C7 amended witness: a listed origin is echoed with Vary Origin, and an
absent origin receives the wildcard. -/
theorem cors_allow_origin_witness :
    ((setCORS (mkConfig exampleEnv) (some ("https://example.com"))).allowOrigin =
      "https://example.com" ∧
     (setCORS (mkConfig exampleEnv) (some ("https://example.com"))).vary = "Origin") ∧
    (setCORS defCfg none).allowOrigin = "*" :=
  ⟨cors_allow_origin.1 exampleEnv ("https://example.com") (by decide),
   cors_allow_origin.2.2 defCfg⟩

/-- C8: on a successful CRM response the relay answers 200 with ok true and
the lead id extracted as the first non-null value among top-level id,
top-level leadId, nested lead.id and nested data.id of the parsed body; an
unparsed body behaves exactly like the empty object, and when none of the
fields is present the extracted id is null. -/
theorem crm_lead_id_extraction :
    (∀ d : Json, (jsGet d ("id")).isNull = false →
      extractLeadId (some d) = jsGet d ("id")) ∧
    (∀ d : Json, (jsGet d ("id")).isNull = true →
      (jsGet d ("leadId")).isNull = false →
      extractLeadId (some d) = jsGet d ("leadId")) ∧
    (∀ d : Json, (jsGet d ("id")).isNull = true →
      (jsGet d ("leadId")).isNull = true →
      (jsGet (jsGet d ("lead")) ("id")).isNull = false →
      extractLeadId (some d) = jsGet (jsGet d ("lead")) ("id")) ∧
    (∀ d : Json, (jsGet d ("id")).isNull = true →
      (jsGet d ("leadId")).isNull = true →
      (jsGet (jsGet d ("lead")) ("id")).isNull = true →
      extractLeadId (some d) = jsGet (jsGet d ("data")) ("id")) ∧
    (∀ d : Json, (jsGet d ("id")).isNull = true →
      (jsGet d ("leadId")).isNull = true →
      (jsGet (jsGet d ("lead")) ("id")).isNull = true →
      (jsGet (jsGet d ("data")) ("id")).isNull = true →
      extractLeadId (some d) = Json.null) ∧
    extractLeadId none = Json.null ∧
    extractLeadId (some (Json.obj [])) = Json.null ∧
    (∀ (rawBody : String) (parsed : Option Json),
      respondAfterCrm true rawBody parsed = (200, RespBody.okLead (extractLeadId parsed))) := by
  refine ⟨?_, ?_, ?_, ?_, ?_, rfl, rfl, fun rawBody parsed => rfl⟩
  · intro d h
    simp [extractLeadId, jsCoalesce, h]
  · intro d h1 h2
    simp [extractLeadId, jsCoalesce, h1, h2]
  · intro d h1 h2 h3
    simp [extractLeadId, jsCoalesce, h1, h2, h3]
  · intro d h1 h2 h3
    simp [extractLeadId, jsCoalesce, h1, h2, h3]
  · intro d h1 h2 h3 h4
    simp only [extractLeadId, jsCoalesce, h1, h2, h3, if_true]
    cases hj : jsGet (jsGet d ("data")) ("id") with
    | null => rfl
    | bool b => rw [hj] at h4; exact absurd h4 (by simp [Json.isNull])
    | num n => rw [hj] at h4; exact absurd h4 (by simp [Json.isNull])
    | str s => rw [hj] at h4; exact absurd h4 (by simp [Json.isNull])
    | arr l => rw [hj] at h4; exact absurd h4 (by simp [Json.isNull])
    | obj f => rw [hj] at h4; exact absurd h4 (by simp [Json.isNull])

/-- C8 witness: the documented success scenario, a body with top-level id
L123. -/
theorem crm_lead_id_extraction_witness :
    extractLeadId (some (Json.obj [(("id" : String), Json.str ("L123"))])) = Json.str ("L123") ∧
    respondAfterCrm true ("") (some (Json.obj [(("id" : String), Json.str ("L123"))])) =
      (200, RespBody.okLead (Json.str ("L123"))) := by
  constructor
  · exact (crm_lead_id_extraction.1 (Json.obj [(("id" : String), Json.str ("L123"))]) rfl).trans rfl
  · rw [crm_lead_id_extraction.2.2.2.2.2.2.2 ("")
      (some (Json.obj [(("id" : String), Json.str ("L123"))]))]
    rw [(crm_lead_id_extraction.1 (Json.obj [(("id" : String), Json.str ("L123"))]) rfl).trans rfl]
    rfl

/-- C9: every normalization step the handler applies to fields is
idempotent: trimming, email normalization (which is trimming of the string
coercion), phone normalization to E.164 (so any non-empty output of
normalizePhoneToE164 is returned unchanged by it), and the trim-and-filter
treatment of tag lists. -/
theorem normalization_idempotent :
    (∀ s : String, jsTrim (jsTrim s) = jsTrim s) ∧
    (∀ v : String, normalizeEmail (normalizeEmail v) = normalizeEmail v) ∧
    (∀ v : String, normalizePhoneToE164 (normalizePhoneToE164 v) = normalizePhoneToE164 v) ∧
    (∀ l : List String, normTags (normTags l) = normTags l) :=
  ⟨jsTrim_idem, fun v => jsTrim_idem v, normalizePhone_idem, normTags_idem⟩

/-- C10: every payload the strict handler actually sends to the CRM has a
non-empty, already-trimmed first name; an email key, when present, that
passes the handler's email regex; and a phone key, when present, that
matches plus followed by 10 to 15 digits. -/
theorem sent_payload_valid (cfg : Config) (r : RawSubmission) (p : Payload)
    (h : step1 cfg r = Step1.send p) :
    p.firstName ≠ "" ∧
    jsTrim p.firstName = p.firstName ∧
    (∀ em, p.email = some em → isValidEmail em = true) ∧
    (∀ ph, p.phone = some ph → isValidPhoneE164 ph = true) := by
  obtain ⟨hpe, -, hfn, -, h3, -, h5⟩ := step1_send_inv cfg r p h
  subst hpe
  refine ⟨?_, ?_, ?_, ?_⟩
  · simpa [sendPayload] using hfn
  · simp [sendPayload, jsTrim_idem]
  · intro em hem
    simp only [sendPayload] at hem
    by_cases he : normalizeEmail (resolveEmailIn r) = ""
    · rw [if_pos he] at hem
      exact Option.noConfusion hem
    · rw [if_neg he] at hem
      have hv := Option.some.inj hem
      subst hv
      cases hb : isValidEmail (normalizeEmail (resolveEmailIn r)) with
      | false => exact absurd ⟨he, hb⟩ h3
      | true => rfl
  · intro ph hph
    simp only [sendPayload] at hph
    by_cases hq : normalizePhoneToE164 (resolvePhoneIn r) = ""
    · rw [if_pos hq] at hph
      exact Option.noConfusion hph
    · rw [if_neg hq] at hph
      have hv := Option.some.inj hph
      subst hv
      cases hb : isValidPhoneE164 (normalizePhoneToE164 (resolvePhoneIn r)) with
      | false => exact absurd ⟨hq, hb⟩ h5
      | true => rfl

/-- C10 witness: concrete valid submission with both contact methods. -/
theorem sent_payload_valid_witness :
    (sendPayload (mkConfig emptyEnv) subTagged).firstName ≠ "" ∧
    jsTrim (sendPayload (mkConfig emptyEnv) subTagged).firstName =
      (sendPayload (mkConfig emptyEnv) subTagged).firstName ∧
    (∀ em, (sendPayload (mkConfig emptyEnv) subTagged).email = some em →
      isValidEmail em = true) ∧
    (∀ ph, (sendPayload (mkConfig emptyEnv) subTagged).phone = some ph →
      isValidPhoneE164 ph = true) :=
  sent_payload_valid (mkConfig emptyEnv) subTagged
    (sendPayload (mkConfig emptyEnv) subTagged) rfl
